import Mathlib

/-!
Verification of the Servo repository fragment consisting of the Magic Leap
application header (support/magicleap/Servo2D/code/inc/Servo2D.h) and the
GStreamer plugin README (ports/gstplugin/README.md).

The header contains only declarations, so the embedding records the declared
surface of the class Servo2D exactly as written: each member function with its
return type, parameter list, virtual and override specifiers, const
qualification and access; the deleted special members; and the two data
members with their default member initializers.  The README is embedded as the
ordered list of command invocations appearing in its code blocks, each with
its environment-variable assignments.
-/

namespace Spec2Proof

/-- A C++ type as it is written in the header: a named type, a pointer to a
type, or a const-qualified type. -/
inductive CppType where
  | named : String → CppType
  | ptr : CppType → CppType
  | constQ : CppType → CppType
deriving DecidableEq, Repr

/-- The innermost type name of a written C++ type. -/
def CppType.baseName : CppType → String
  | .named n => n
  | .ptr t => CppType.baseName t
  | .constQ t => CppType.baseName t

/-- A C++ access specifier. -/
inductive Access where
  | publicA
  | protectedA
  | privateA
deriving DecidableEq, Repr

/-- A declared formal parameter of a member function. -/
structure CppParam where
  ptype : CppType
  pname : String
deriving DecidableEq, Repr

/-- A member function declaration as written in the header: name, return
type, parameters, whether the tokens virtual and override appear, whether the
function is const-qualified, its access region, whether the fragment contains
a body for it, and the text of its @return documentation line when present. -/
structure MethodDecl where
  mname : String
  ret : CppType
  params : List CppParam
  declaredVirtual : Bool
  declaredOverride : Bool
  constQualified : Bool
  access : Access
  hasBodyInFragment : Bool
  docReturn : Option String
deriving DecidableEq, Repr

/-- The type names appearing in a member function declaration. -/
def MethodDecl.typeNames (m : MethodDecl) : List String :=
  CppType.baseName m.ret :: m.params.map (fun p => CppType.baseName p.ptype)

/-- The four copy and move special member functions. -/
inductive SpecialMember where
  | copyCtor
  | moveCtor
  | copyAssign
  | moveAssign
deriving DecidableEq, Repr

/-- A default member initializer written on a data member.  The only form
occurring in the header is the nullptr literal. -/
inductive InitExpr where
  | nullptrLit
deriving DecidableEq, Repr

/-- A data member declaration: name, type, optional default member
initializer, access region. -/
structure FieldDecl where
  fname : String
  ftype : CppType
  finit : Option InitExpr
  faccess : Access
deriving DecidableEq, Repr

/-- A class declaration: name, base class, presence of a declared constructor
and virtual destructor, the special members declared as deleted, the member
functions, and the data members, all in source order. -/
structure ClassDecl where
  cname : String
  baseClass : String
  hasCtorDecl : Bool
  hasVirtualDtorDecl : Bool
  deletedSpecials : List SpecialMember
  methods : List MethodDecl
  fields : List FieldDecl
deriving DecidableEq, Repr

/-- All type names referenced by a class declaration: its base class, the
types in its member function signatures, and its data member types. -/
def referencedTypeNames (c : ClassDecl) : List String :=
  c.baseClass ::
    (c.methods.foldr (fun m acc => MethodDecl.typeNames m ++ acc) []
      ++ c.fields.map (fun f => CppType.baseName f.ftype))

/-- Look up a member function of a class by name. -/
def findMethod (c : ClassDecl) (n : String) : Option MethodDecl :=
  c.methods.find? (fun m => m.mname == n)

/-- The class Servo2D exactly as declared in
support/magicleap/Servo2D/code/inc/Servo2D.h: a subclass of
lumin::LandscapeApp with a declared constructor and virtual destructor,
deleted copy and move constructors and assignment operators, seven declared
member functions in the protected region (none with a body in the fragment),
and two private pointer data members initialized to nullptr. -/
def Servo2D : ClassDecl where
  cname := "Servo2D"
  baseClass := "lumin::LandscapeApp"
  hasCtorDecl := true
  hasVirtualDtorDecl := true
  deletedSpecials := [.copyCtor, .moveCtor, .copyAssign, .moveAssign]
  methods :=
    [ { mname := "init"
        ret := .named ("int")
        params := []
        declaredVirtual := false
        declaredOverride := true
        constQualified := false
        access := .protectedA
        hasBodyInFragment := false
        docReturn := some ("0 on success, error code on failure.") }
    , { mname := "deInit"
        ret := .named ("int")
        params := []
        declaredVirtual := false
        declaredOverride := true
        constQualified := false
        access := .protectedA
        hasBodyInFragment := false
        docReturn := some ("0 on success, error code on failure.") }
    , { mname := "getInitialPrismSize"
        ret := .constQ (.named ("glm::vec3"))
        params := []
        declaredVirtual := false
        declaredOverride := false
        constQualified := true
        access := .protectedA
        hasBodyInFragment := false
        docReturn := none }
    , { mname := "createInitialPrism"
        ret := .named ("void")
        params := []
        declaredVirtual := false
        declaredOverride := false
        constQualified := false
        access := .protectedA
        hasBodyInFragment := false
        docReturn := none }
    , { mname := "spawnInitialScenes"
        ret := .named ("void")
        params := []
        declaredVirtual := false
        declaredOverride := false
        constQualified := false
        access := .protectedA
        hasBodyInFragment := false
        docReturn := none }
    , { mname := "updateLoop"
        ret := .named ("bool")
        params := [⟨.named ("float"), "fDelta"⟩]
        declaredVirtual := true
        declaredOverride := true
        constQualified := false
        access := .protectedA
        hasBodyInFragment := false
        docReturn := none }
    , { mname := "eventListener"
        ret := .named ("bool")
        params := [⟨.ptr (.named ("lumin::ServerEvent")), "event"⟩]
        declaredVirtual := true
        declaredOverride := true
        constQualified := false
        access := .protectedA
        hasBodyInFragment := false
        docReturn := none } ]
  fields :=
    [ { fname := "prism_"
        ftype := .ptr (.named ("lumin::Prism"))
        finit := some .nullptrLit
        faccess := .privateA }
    , { fname := "prismSceneManager_"
        ftype := .ptr (.named ("PrismSceneManager"))
        finit := some .nullptrLit
        faccess := .privateA } ]

/-- The headers included by Servo2D.h, in source order. -/
def Servo2D_includes : List String :=
  [ "lumin/LandscapeApp.h"
  , "lumin/Prism.h"
  , "lumin/event/ServerEvent.h"
  , "SceneDescriptor.h"
  , "PrismSceneManager.h" ]

/-- Whether a special member of the class is usable: in this class every
special member is either implicitly available or explicitly deleted, and a
deleted special member cannot be called. -/
def specialUsable (c : ClassDecl) (s : SpecialMember) : Bool :=
  !(c.deletedSpecials.contains s)

/-- Standard C and C++ thread and synchronization facility type names. -/
def threadAndSyncFacilityNames : List String :=
  [ "std::thread", "std::jthread", "std::mutex", "std::recursive_mutex"
  , "std::timed_mutex", "std::shared_mutex", "std::condition_variable"
  , "std::condition_variable_any", "std::atomic", "std::future"
  , "std::promise", "std::lock_guard", "std::unique_lock"
  , "std::counting_semaphore", "std::binary_semaphore", "std::latch"
  , "std::barrier", "pthread_t", "pthread_mutex_t", "pthread_cond_t" ]

/-- Standard C and C++ thread and synchronization headers. -/
def threadAndSyncHeaderNames : List String :=
  [ "thread", "mutex", "shared_mutex", "atomic", "condition_variable"
  , "future", "semaphore", "latch", "barrier", "stop_token", "pthread.h" ]

/-- The state of a Servo2D object: its two declared data members, each a
pointer that is either null or some address. -/
inductive CppPtr where
  | null
  | addr : Nat → CppPtr
deriving DecidableEq, Repr

/-- The fields of a Servo2D object at run time. -/
structure Servo2DState where
  prism_ : CppPtr
  prismSceneManager_ : CppPtr
deriving DecidableEq, Repr

/-- The value of a nullptr default member initializer. -/
def InitExpr.eval : InitExpr → CppPtr
  | .nullptrLit => .null

/-- The state of a Servo2D object immediately after construction: each data
member holds the value of its default member initializer (the declared
constructor has no body in the fragment and the initializers are given in the
member declarations). -/
def initialServo2DState : Servo2DState where
  prism_ := InitExpr.eval .nullptrLit
  prismSceneManager_ := InitExpr.eval .nullptrLit

/-- The three float components of a glm::vec3 value. -/
structure Vec3 where
  x : Float
  y : Float
  z : Float

/-- Execution of a const-qualified member function of a class with no mutable
data members: under C++ const semantics its body may read the object but not
write it, so the call is a pure function of the state, returning the produced
value and leaving the state as it was. -/
def constMemberCall {α : Type} (body : Servo2DState → α) (s : Servo2DState) :
    Servo2DState × α :=
  (s, body s)

/-- An environment-variable assignment prefixed to a documented command, or
shown on its own in the README. -/
structure EnvAssign where
  var : String
  value : String
deriving DecidableEq, Repr

/-- One element of a gst-launch pipeline: its element name and its
property settings. -/
structure PipeElem where
  elemName : String
  props : List (String × String)
deriving DecidableEq, Repr

/-- A command invocation documented in a README code block: a gst-launch-1.0
pipeline, a gst-inspect-1.0 inspection of a target, a plain shell command with
its arguments, or a code block consisting only of an environment-variable
assignment. -/
inductive GstCommand where
  | gstLaunch : List EnvAssign → List PipeElem → GstCommand
  | gstInspect : List EnvAssign → String → GstCommand
  | shell : String → List String → GstCommand
  | envOnly : EnvAssign → GstCommand
deriving DecidableEq, Repr

/-- The environment variables assigned by a documented command. -/
def GstCommand.envVars : GstCommand → List String
  | .gstLaunch env _ => env.map EnvAssign.var
  | .gstInspect env _ => env.map EnvAssign.var
  | .shell _ _ => []
  | .envOnly a => [a.var]

/-- The four documented pipeline elements of the run command, in order:
servosrc, queue, videoflip with its vertical-flip property, autovideosink. -/
def runPipeline : List PipeElem :=
  [ ⟨"servosrc", []⟩
  , ⟨"queue", []⟩
  , ⟨"videoflip", [("video-direction", "vert")]⟩
  , ⟨"autovideosink", []⟩ ]

/-- Every command invocation appearing in a code block of
ports/gstplugin/README.md, in document order: the build, install, run,
troubleshooting and combined-invocation blocks. -/
def readme_commands : List GstCommand :=
  [ .shell ("./mach") ["build", "-r", "-p", "servo-gst-plugin"]
  , .shell ("mkdir") ["target/gstplugins"]
  , .shell ("cp") ["target/release/libgstservoplugin.*", "target/gstplugins"]
  , .gstLaunch [⟨"GST_PLUGIN_PATH", "target/gstplugins"⟩] runPipeline
  , .gstInspect [⟨"GST_PLUGIN_PATH", "target/gstplugins"⟩] ("servosrc")
  , .gstInspect [⟨"GST_PLUGIN_PATH", "target/gstplugins"⟩]
      ("target/gstplugins/libgstservoplugin.so")
  , .shell ("rm") ["-r", "~/.cache/gstreamer-1.0"]
  , .envOnly ⟨"LD_LIBRARY_PATH", "$PWD/support/linux/gstreamer/gst/lib"⟩
  , .envOnly ⟨"LD_PRELOAD", "$PWD/target/gstplugins/libgstservoplugin.so"⟩
  , .envOnly ⟨"GST_PLUGIN_SCANNER",
      "$PWD/support/linux/gstreamer/gst/libexec/gstreamer-1.0/gst-plugin-scanner"⟩
  , .envOnly ⟨"GST_PLUGIN_PATH",
      "$PWD/target/gstplugins/:$PWD/support/linux/gstreamer/gst/lib"⟩
  , .gstLaunch
      [ ⟨"GST_PLUGIN_SCANNER",
          "$PWD/support/linux/gstreamer/gst/libexec/gstreamer-1.0/gst-plugin-scanner"⟩
      , ⟨"LD_PRELOAD", "$PWD/target/gstplugins/libgstservoplugin.so"⟩
      , ⟨"GST_PLUGIN_PATH",
          "$PWD/target/gstplugins/:$PWD/support/linux/gstreamer/gst/lib"⟩
      , ⟨"LD_LIBRARY_PATH", "$PWD/support/linux/gstreamer/gst/lib"⟩ ]
      runPipeline ]

/-- The element-name sequence of every documented gst-launch-1.0 pipeline. -/
def launchPipelineNames : List (List String) :=
  readme_commands.foldr
    (fun c acc =>
      match c with
      | .gstLaunch _ p => p.map PipeElem.elemName :: acc
      | _ => acc) []

/-- The target of every documented gst-inspect-1.0 invocation. -/
def inspectTargets : List String :=
  readme_commands.foldr
    (fun c acc =>
      match c with
      | .gstInspect _ t => t :: acc
      | _ => acc) []

/-- Every environment variable assigned anywhere in the README code blocks. -/
def allEnvVars : List String :=
  readme_commands.foldr (fun c acc => GstCommand.envVars c ++ acc) []

/-- The four environment variables the README uses to configure plugin
loading. -/
def pluginEnvVars : List String :=
  ["GST_PLUGIN_PATH", "GST_PLUGIN_SCANNER", "LD_LIBRARY_PATH", "LD_PRELOAD"]

/-- C1 counterexample: the claim that every one of the seven declared methods
overrides a virtual member of lumin::LandscapeApp is false: not every declared
method carries the override specifier, and in particular getInitialPrismSize
is declared with neither virtual nor override. -/
theorem C1_counterexample :
    (Servo2D.methods.all (fun m => m.declaredOverride)) = false ∧
    (findMethod Servo2D ("getInitialPrismSize")).map
        (fun m => (m.declaredOverride, m.declaredVirtual)) =
      some (false, false) := by
  decide

/-- C1 (amended): Servo2D derives from lumin::LandscapeApp, and of its seven
declared methods exactly init, deInit, updateLoop and eventListener are
declared with the override specifier, hence override virtual members of the
base class; the remaining three, getInitialPrismSize, createInitialPrism and
spawnInitialScenes, are ordinary member functions declared with neither
virtual nor override. -/
theorem C1_override_points :
    Servo2D.baseClass = "lumin::LandscapeApp" ∧
    Servo2D.methods.map MethodDecl.mname =
      [ "init", "deInit", "getInitialPrismSize", "createInitialPrism"
      , "spawnInitialScenes", "updateLoop", "eventListener" ] ∧
    (Servo2D.methods.filter (fun m => m.declaredOverride)).map
        MethodDecl.mname =
      ["init", "deInit", "updateLoop", "eventListener"] ∧
    (Servo2D.methods.filter
        (fun m => !m.declaredOverride && !m.declaredVirtual)).map
        MethodDecl.mname =
      ["getInitialPrismSize", "createInitialPrism", "spawnInitialScenes"] := by
  decide

/-- C2: init and deInit are declared with return type int, and their @return
documentation states that 0 signals success and any other value is an error
code signalling failure. -/
theorem C2_init_deInit_return_int_error_codes :
    (findMethod Servo2D ("init")).map (fun m => (m.ret, m.docReturn)) =
      some (.named ("int"), some ("0 on success, error code on failure.")) ∧
    (findMethod Servo2D ("deInit")).map (fun m => (m.ret, m.docReturn)) =
      some (.named ("int"), some ("0 on success, error code on failure.")) := by
  decide

/-- C3: updateLoop is declared taking a single float parameter and returning
bool, eventListener is declared taking a single pointer-to-lumin::ServerEvent
parameter and returning bool, and both carry the override specifier binding
their returned bool to the base class contract of the host-driven loop. -/
theorem C3_loop_and_listener_signatures :
    (findMethod Servo2D ("updateLoop")).map
        (fun m => (m.ret, m.params.map CppParam.ptype, m.declaredOverride)) =
      some (.named ("bool"), [.named ("float")], true) ∧
    (findMethod Servo2D ("eventListener")).map
        (fun m => (m.ret, m.params.map CppParam.ptype, m.declaredOverride)) =
      some (.named ("bool"), [.ptr (.named ("lumin::ServerEvent"))], true) := by
  decide

/-- C4: the copy constructor, move constructor, copy assignment operator and
move assignment operator of Servo2D are all declared deleted, so none of the
four is usable: no copy or move of a Servo2D object can be constructed or
assigned. -/
theorem C4_noncopyable_nonmovable :
    Servo2D.deletedSpecials =
      [.copyCtor, .moveCtor, .copyAssign, .moveAssign] ∧
    specialUsable Servo2D .copyCtor = false ∧
    specialUsable Servo2D .moveCtor = false ∧
    specialUsable Servo2D .copyAssign = false ∧
    specialUsable Servo2D .moveAssign = false := by
  decide

/-- C5: the data members of Servo2D are exactly prism_ of type pointer to
lumin::Prism and prismSceneManager_ of type pointer to PrismSceneManager, in
that order; no other data member is declared. -/
theorem C5_exactly_two_pointer_fields :
    Servo2D.fields.map (fun f => (f.fname, f.ftype)) =
      [ ("prism_", .ptr (.named ("lumin::Prism")))
      , ("prismSceneManager_", .ptr (.named ("PrismSceneManager"))) ] := by
  decide

/-- C6: both data members carry the default member initializer nullptr, so
immediately after construction, before createInitialPrism or init has run,
prism_ and prismSceneManager_ are both null. -/
theorem C6_fields_default_nullptr :
    Servo2D.fields.map FieldDecl.finit = [some .nullptrLit, some .nullptrLit] ∧
    initialServo2DState.prism_ = .null ∧
    initialServo2DState.prismSceneManager_ = .null := by
  decide

/-- C7: no member function declared in the fragment has a body here, no type
referenced by the class declaration is a standard thread or synchronization
facility, and no included header is a standard thread or synchronization
header: the fragment declares only reactions to host-issued calls and
initiates no concurrent activity of its own. -/
theorem C7_no_threads_or_sync :
    (Servo2D.methods.all (fun m => !m.hasBodyInFragment)) = true ∧
    ((referencedTypeNames Servo2D).all
        (fun t => !(threadAndSyncFacilityNames.contains t))) = true ∧
    (Servo2D_includes.all
        (fun h => !(threadAndSyncHeaderNames.contains h))) = true := by
  decide

/-- C8: every documented gst-launch-1.0 pipeline consists of exactly the
elements servosrc, queue, videoflip, autovideosink connected in that order,
and the documented gst-inspect-1.0 invocations inspect servosrc and the
installed plugin library. -/
theorem C8_documented_pipeline :
    launchPipelineNames =
      [ ["servosrc", "queue", "videoflip", "autovideosink"]
      , ["servosrc", "queue", "videoflip", "autovideosink"] ] ∧
    inspectTargets =
      ["servosrc", "target/gstplugins/libgstservoplugin.so"] := by
  decide

/-- C9: every environment variable assigned in any documented invocation is
one of GST_PLUGIN_PATH, GST_PLUGIN_SCANNER, LD_LIBRARY_PATH and LD_PRELOAD,
and each of these four is assigned in at least one documented invocation. -/
theorem C9_plugin_env_vars :
    (allEnvVars.all (fun v => pluginEnvVars.contains v)) = true ∧
    (pluginEnvVars.all (fun v => allEnvVars.contains v)) = true := by
  decide

/-- C10: getInitialPrismSize is declared const-qualified with no parameters,
returning a const glm::vec3 value, every data member of the class is a
non-mutable pointer, and under const member semantics a call to it leaves
both fields of the object state unchanged while producing a Vec3 value. -/
theorem C10_getInitialPrismSize_const_pure :
    (findMethod Servo2D ("getInitialPrismSize")).map
        (fun m => (m.constQualified, m.ret, m.params)) =
      some (true, .constQ (.named ("glm::vec3")), []) ∧
    ∀ (body : Servo2DState → Vec3) (s : Servo2DState),
      (constMemberCall body s).1.prism_ = s.prism_ ∧
      (constMemberCall body s).1.prismSceneManager_ = s.prismSceneManager_ ∧
      (constMemberCall body s).2 = body s := by
  exact ⟨by decide, fun body s => ⟨rfl, rfl, rfl⟩⟩

end Spec2Proof
